import Mathlib

/-!
Shallow embedding of the change-monitoring core of `bot.py` (a Telegram page
change watcher).  The central function `check_page_changes` runs one monitoring
cycle for a project: it prefers a recorded RSS feed, otherwise tries to
discover one, otherwise (or when the feed is unusable) diffs raw page content
by hash, and finally applies the "no changes" notification throttle.

Python stores timestamps as ISO strings.  We model a stored timestamp as
`TimeStr`: either a parseable time (seconds, as an `Int`) or an opaque
non-empty string that `datetime.fromisoformat` rejects (`TimeStr.invalid`).
The empty string is Python-falsy and behaves exactly like `None`, so it is
modelled by `none` at the `Option` level.

Network and hashing side effects are modelled as oracle functions in `Env`:
`fetchFeed` stands for `fetch_rss_content`, `discoverFeed` for
`find_rss_feed`, `fetchRaw` for `fetch_page_content`, and `hash` for
`calculate_hash` (MD5, treated abstractly).
-/

namespace ChangesBot

/-- A stored timestamp string: parseable (carrying the time as seconds) or a
non-empty string that fails `datetime.fromisoformat`. -/
inductive TimeStr
  | valid (t : Int)
  | invalid
deriving DecidableEq, Repr

/-- The `Project` dataclass of `bot.py`. -/
structure Project where
  project_id : String
  url : String
  name : String
  last_hash : Option String := none
  last_check : Option TimeStr := none
  interval_minutes : Int := 60
  is_active : Bool := true
  notify_on_no_changes : Bool := false
  last_notification : Option TimeStr := none
  rss_url : Option String := none
  last_rss_items : Option (List String) := none
deriving DecidableEq, Repr

/-- One item of a parsed RSS feed, as built by `fetch_rss_content`. -/
structure RssItem where
  id : String
  title : String
  link : String
  published : String
deriving DecidableEq, Repr, BEq

/-- The dict returned by `fetch_rss_content` on success. -/
structure RssData where
  items : List RssItem
  feed_title : String
  feed_link : String
deriving DecidableEq, Repr

/-- A raw `feedparser` entry: every field may be absent. -/
structure FeedEntry where
  id : Option String
  title : Option String
  link : Option String
  published : Option String
  updated : Option String
deriving DecidableEq, Repr

/-- The result of `feedparser.parse`: the bozo flag, the entry list and the
feed-level title/link. -/
structure ParsedFeed where
  bozo : Nat
  entries : List FeedEntry
  title : Option String
  link : Option String
deriving DecidableEq, Repr

/-- `entry.get('id', entry.get('link', ''))` and friends: one feed entry
becomes one item dict. -/
def entry_to_item (e : FeedEntry) : RssItem :=
  { id := e.id.getD (e.link.getD "")
  , title := e.title.getD "Без названия"
  , link := e.link.getD ""
  , published := e.published.getD (e.updated.getD "") }

/-- `fetch_rss_content` of `bot.py`, applied to an already-parsed feed: when
`feed.bozo == 0 or len(feed.entries) > 0` it keeps the first 10 entries
(`feed.entries[:10]`) and builds the item list, else it reports failure.  The
`rss_url` argument is the default for the feed-level link. -/
def fetch_rss_content (rss_url : String) (f : ParsedFeed) : Option RssData :=
  if f.bozo = 0 ∨ 0 < f.entries.length then
    some { items := (f.entries.take 10).map entry_to_item
         , feed_title := f.title.getD "RSS Feed"
         , feed_link := f.link.getD rss_url }
  else
    none

/-- The retrieval collaborators of one cycle, as oracles.  `fetchFeed u` is
the end-to-end result of `fetch_rss_content` on feed url `u` (`none` covers
network errors and invalid feeds), `discoverFeed` is `find_rss_feed`,
`fetchRaw` is `fetch_page_content`, and `hash` is `calculate_hash`. -/
structure Env where
  fetchFeed : String → Option RssData
  discoverFeed : String → Option String
  fetchRaw : String → Option String
  hash : String → String

/-- The detector's classification of one cycle. -/
inductive Outcome
  | firstObservation
  | changed
  | unchanged
  | feedNewItems (items : List RssItem)
  | fetchFailed
deriving DecidableEq, Repr

/-- The outbound messages `check_page_changes` can send, one constructor per
`send_message` call site. -/
inductive Notif
  | rssStarted
  | newItem (item : RssItem)
  | noChangesRss
  | trackingStarted
  | changedMsg
  | noChanges
  | fetchFailedMsg
deriving DecidableEq, Repr, BEq

/-- Lines 613-629 / 717-735 of `bot.py`: decide whether a "no changes"
notification is due.  Reads only `notify_on_no_changes` and
`last_notification`; an unparseable stored timestamp falls into the bare
`except` branch, which sets `should_notify = True`. -/
def should_notify_no_change (p : Project) (now : Int) : Bool :=
  if p.notify_on_no_changes then
    match p.last_notification with
    | none => true
    | some TimeStr.invalid => true
    | some (TimeStr.valid t) => decide (3600 ≤ now - t)
  else
    false

/-- The common tail of both `unchanged` branches: `last_check` has already
been written into `p2`; send the (feed or raw) "no changes" message and stamp
`last_notification` when the throttle allows. -/
def no_change_tail (now : Int) (p2 : Project) (msg : Notif) :
    Outcome × Project × List Notif :=
  if should_notify_no_change p2 now then
    (Outcome.unchanged, { p2 with last_notification := some (TimeStr.valid now) }, [msg])
  else
    (Outcome.unchanged, p2, [])

/-- Lines 559-648 of `bot.py`: the feed branch of a cycle, entered when
`rss_data` is present with a non-empty item list.  `current_item_ids` of the
source is `items.map (fun it => it.id)` and `new_items` is
`items.filter (fun it => !(prev.contains it.id))`, written inline. -/
def feed_branch (now : Int) (p1 : Project) (items : List RssItem) :
    Outcome × Project × List Notif :=
  match p1.last_rss_items with
  | none =>
    (Outcome.firstObservation,
     { p1 with last_rss_items := some (items.map (fun it => it.id))
             , last_check := some (TimeStr.valid now) },
     [Notif.rssStarted])
  | some prev =>
    if (items.filter (fun it => !(prev.contains it.id))).isEmpty then
      no_change_tail now { p1 with last_check := some (TimeStr.valid now) }
        Notif.noChangesRss
    else
      (Outcome.feedNewItems (items.filter (fun it => !(prev.contains it.id))),
       { p1 with last_rss_items := some (items.map (fun it => it.id))
               , last_check := some (TimeStr.valid now) },
       (items.filter (fun it => !(prev.contains it.id))).reverse.map Notif.newItem)

/-- Lines 650-754 of `bot.py`: the raw-content branch of a cycle, entered
when no usable feed data was obtained. -/
def raw_branch (env : Env) (now : Int) (p1 : Project) :
    Outcome × Project × List Notif :=
  match env.fetchRaw p1.url with
  | none =>
    (Outcome.fetchFailed,
     { p1 with last_check := some (TimeStr.valid now) },
     [Notif.fetchFailedMsg])
  | some content =>
    match p1.last_hash with
    | none =>
      (Outcome.firstObservation,
       { p1 with last_hash := some (env.hash content)
               , last_check := some (TimeStr.valid now) },
       [Notif.trackingStarted])
    | some h =>
      if env.hash content ≠ h then
        (Outcome.changed,
         { p1 with last_hash := some (env.hash content)
                 , last_check := some (TimeStr.valid now) },
         [Notif.changedMsg])
      else
        no_change_tail now { p1 with last_check := some (TimeStr.valid now) }
          Notif.noChanges

/-- Lines 545-556 of `bot.py`: obtain `rss_data`.  A recorded `rss_url` is
fetched directly; otherwise `find_rss_feed` runs and, when it finds a feed,
the url is persisted on the project before fetching it. -/
def feed_lookup (env : Env) (p : Project) : Project × Option RssData :=
  match p.rss_url with
  | some u => (p, env.fetchFeed u)
  | none =>
    match env.discoverFeed p.url with
    | some u => ({ p with rss_url := some u }, env.fetchFeed u)
    | none => (p, none)

/-- `if rss_data and rss_data.get('items')` of line 559: feed data is usable
when present with a non-empty item list. -/
def usable_feed : Option RssData → Bool
  | some d => !d.items.isEmpty
  | none => false

/-- `check_page_changes` of `bot.py`: one monitoring cycle.  Returns the
detector outcome, the project record as stored back into `user_projects`, and
the list of messages sent, in order of sending.  `now` is the cycle's start
time (`get_local_time()` at entry). -/
def check_page_changes (env : Env) (now : Int) (p : Project) :
    Outcome × Project × List Notif :=
  match (feed_lookup env p).2 with
  | some d =>
    if d.items.isEmpty then raw_branch env now (feed_lookup env p).1
    else feed_branch now (feed_lookup env p).1 d.items
  | none => raw_branch env now (feed_lookup env p).1

/-- Does a cycle's message list contain a "no changes" notification
(either the raw-content or the RSS variant)? -/
def emits_no_change (ns : List Notif) : Bool :=
  ns.contains Notif.noChanges || ns.contains Notif.noChangesRss

/-- The result of the `/interval` command's core (lines 1185-1201). -/
inductive IntervalResult
  | invalidInterval
  | ok (p : Project)
deriving DecidableEq, Repr

/-- `interval_command` of `bot.py`, per-project core: reject `minutes < 1`
with the "must be greater than 0" error before any mutation, otherwise set
`interval_minutes` and store the project back. -/
def interval_command_core (p : Project) (minutes : Int) : IntervalResult :=
  if minutes < 1 then IntervalResult.invalidInterval
  else IntervalResult.ok { p with interval_minutes := minutes }

/-- The project actually in the store after the `/interval` command: on
rejection the command returns before touching the record. -/
def interval_command_apply (p : Project) (minutes : Int) : Project :=
  match interval_command_core p minutes with
  | IntervalResult.invalidInterval => p
  | IntervalResult.ok q => q

/-! ## Shared auxiliary lemmas -/

/-- `feed_lookup` changes no field besides `rss_url`, and changes `rss_url`
only from `none` to a discovered url. -/
theorem feed_lookup_spec (env : Env) (p : Project) :
    ((feed_lookup env p).1.project_id = p.project_id ∧
     (feed_lookup env p).1.url = p.url ∧
     (feed_lookup env p).1.name = p.name ∧
     (feed_lookup env p).1.last_hash = p.last_hash ∧
     (feed_lookup env p).1.last_check = p.last_check ∧
     (feed_lookup env p).1.interval_minutes = p.interval_minutes ∧
     (feed_lookup env p).1.is_active = p.is_active ∧
     (feed_lookup env p).1.notify_on_no_changes = p.notify_on_no_changes ∧
     (feed_lookup env p).1.last_notification = p.last_notification ∧
     (feed_lookup env p).1.last_rss_items = p.last_rss_items) ∧
    ((feed_lookup env p).1.rss_url = p.rss_url ∨
     (p.rss_url = none ∧ ∃ u, (feed_lookup env p).1.rss_url = some u)) := by
  unfold feed_lookup
  cases h : p.rss_url with
  | some u => exact ⟨⟨rfl, rfl, rfl, rfl, rfl, rfl, rfl, rfl, rfl, rfl⟩, Or.inl h⟩
  | none =>
    cases hd : env.discoverFeed p.url with
    | some u =>
      exact ⟨⟨rfl, rfl, rfl, rfl, rfl, rfl, rfl, rfl, rfl, rfl⟩, Or.inr ⟨rfl, u, rfl⟩⟩
    | none => exact ⟨⟨rfl, rfl, rfl, rfl, rfl, rfl, rfl, rfl, rfl, rfl⟩, Or.inl h⟩

/-- The throttle decision reads only the notify flag and the stored
notification timestamp. -/
theorem should_notify_congr (p q : Project) (now : Int)
    (h1 : p.notify_on_no_changes = q.notify_on_no_changes)
    (h2 : p.last_notification = q.last_notification) :
    should_notify_no_change p now = should_notify_no_change q now := by
  unfold should_notify_no_change
  rw [h1, h2]

/-- The common "no changes" tail always classifies the cycle `unchanged`. -/
theorem no_change_tail_fst (now : Int) (p2 : Project) (msg : Notif) :
    (no_change_tail now p2 msg).1 = Outcome.unchanged := by
  unfold no_change_tail
  split <;> rfl

/-- A cycle either takes the feed branch on usable feed data, or falls to the
raw-content branch. -/
theorem check_cases (env : Env) (now : Int) (p : Project) :
    (∃ d, (feed_lookup env p).2 = some d ∧ d.items.isEmpty = false ∧
       check_page_changes env now p = feed_branch now (feed_lookup env p).1 d.items) ∨
    (usable_feed (feed_lookup env p).2 = false ∧
       check_page_changes env now p = raw_branch env now (feed_lookup env p).1) := by
  unfold check_page_changes usable_feed
  cases hd : (feed_lookup env p).2 with
  | none => exact Or.inr ⟨rfl, rfl⟩
  | some d =>
    cases he : d.items.isEmpty with
    | false => exact Or.inl ⟨d, rfl, he, by simp [he]⟩
    | true => exact Or.inr ⟨by simp [he], by simp [he]⟩

/-- When no usable feed data is obtained, the cycle is exactly the raw-content
branch applied to the (possibly feed-url-enriched) project. -/
theorem check_raw_of_unusable (env : Env) (now : Int) (p : Project)
    (hu : usable_feed (feed_lookup env p).2 = false) :
    check_page_changes env now p = raw_branch env now (feed_lookup env p).1 := by
  rcases check_cases env now p with ⟨d, hd, he, _⟩ | ⟨_, heq⟩
  · rw [hd] at hu
    simp [usable_feed, he] at hu
  · exact heq

/-- Behaviour of the "no changes" tail relative to the original project `p`,
whose notify flag and notification timestamp agree with `p2`. -/
theorem no_change_tail_outer (now : Int) (p2 : Project) (msg : Notif) (p : Project)
    (hflag : p2.notify_on_no_changes = p.notify_on_no_changes)
    (hln : p2.last_notification = p.last_notification)
    (hmsg : msg = Notif.noChanges ∨ msg = Notif.noChangesRss) :
    emits_no_change (no_change_tail now p2 msg).2.2 = should_notify_no_change p now ∧
    (should_notify_no_change p now = true →
       (no_change_tail now p2 msg).2.1.last_notification = some (TimeStr.valid now)) ∧
    (should_notify_no_change p now = false →
       (no_change_tail now p2 msg).2.1.last_notification = p.last_notification) := by
  have hc : should_notify_no_change p2 now = should_notify_no_change p now :=
    should_notify_congr p2 p now hflag hln
  unfold no_change_tail
  rw [hc]
  cases hs : should_notify_no_change p now <;> rcases hmsg with rfl | rfl <;>
    simp [emits_no_change, hln] <;> decide

/-- An `unchanged` cycle is exactly a "no changes" tail on the project with
`last_check` stamped. -/
theorem unchanged_inversion (env : Env) (now : Int) (p : Project)
    (hout : (check_page_changes env now p).1 = Outcome.unchanged) :
    ∃ msg, (msg = Notif.noChanges ∨ msg = Notif.noChangesRss) ∧
      check_page_changes env now p =
        no_change_tail now
          { (feed_lookup env p).1 with last_check := some (TimeStr.valid now) } msg := by
  rcases check_cases env now p with ⟨d, hd, he, heq⟩ | ⟨hu, heq⟩
  · rw [heq] at hout ⊢
    unfold feed_branch at hout ⊢
    cases hprev : (feed_lookup env p).1.last_rss_items with
    | none => simp [hprev] at hout
    | some prev =>
      simp only [hprev] at hout ⊢
      cases hni : (d.items.filter (fun it => !(prev.contains it.id))).isEmpty with
      | false =>
        rw [hni] at hout
        simp at hout
      | true =>
        refine ⟨Notif.noChangesRss, Or.inr rfl, ?_⟩
        simp
  · rw [heq] at hout ⊢
    unfold raw_branch at hout ⊢
    cases hf : env.fetchRaw (feed_lookup env p).1.url with
    | none => simp [hf] at hout
    | some c =>
      simp only [hf] at hout ⊢
      cases hh : (feed_lookup env p).1.last_hash with
      | none => simp [hh] at hout
      | some hsh =>
        simp only [hh] at hout ⊢
        by_cases hx : env.hash c = hsh
        · refine ⟨Notif.noChanges, Or.inl rfl, ?_⟩
          simp [hx]
        · simp [hx] at hout

/-- Every `unchanged` cycle obeys the throttle of `should_notify_no_change`
evaluated on the original record, and stamps `last_notification` exactly when
it notifies. -/
theorem unchanged_cycle_spec (env : Env) (now : Int) (p : Project)
    (hout : (check_page_changes env now p).1 = Outcome.unchanged) :
    emits_no_change (check_page_changes env now p).2.2 = should_notify_no_change p now ∧
    (should_notify_no_change p now = true →
       (check_page_changes env now p).2.1.last_notification = some (TimeStr.valid now)) ∧
    (should_notify_no_change p now = false →
       (check_page_changes env now p).2.1.last_notification = p.last_notification) := by
  obtain ⟨⟨_, _, _, _, _, _, _, hflag, hln, _⟩, _⟩ := feed_lookup_spec env p
  obtain ⟨msg, hmsg, heq⟩ := unchanged_inversion env now p hout
  rw [heq]
  exact no_change_tail_outer now _ msg p hflag hln hmsg

/-- A `fetch-failed` cycle is exactly the raw-fetch-failure tuple, and happens
only when `fetch_page_content` on the project's url failed. -/
theorem fetch_failed_inversion (env : Env) (now : Int) (p : Project)
    (hout : (check_page_changes env now p).1 = Outcome.fetchFailed) :
    check_page_changes env now p =
      (Outcome.fetchFailed,
       { (feed_lookup env p).1 with last_check := some (TimeStr.valid now) },
       [Notif.fetchFailedMsg]) ∧
    env.fetchRaw p.url = none := by
  obtain ⟨⟨_, hurl, _, _, _, _, _, _, _, _⟩, _⟩ := feed_lookup_spec env p
  rcases check_cases env now p with ⟨d, hd, he, heq⟩ | ⟨hu, heq⟩
  · rw [heq] at hout
    unfold feed_branch at hout
    cases hprev : (feed_lookup env p).1.last_rss_items with
    | none => simp [hprev] at hout
    | some prev =>
      simp only [hprev] at hout
      cases hni : (d.items.filter (fun it => !(prev.contains it.id))).isEmpty with
      | false =>
        rw [hni] at hout
        simp at hout
      | true =>
        rw [hni] at hout
        simp [no_change_tail_fst] at hout
  · rw [heq] at hout ⊢
    unfold raw_branch at hout ⊢
    cases hf : env.fetchRaw (feed_lookup env p).1.url with
    | none =>
      have hf2 : env.fetchRaw p.url = none := by
        rw [hurl] at hf
        exact hf
      exact ⟨by simp [hf], hf2⟩
    | some c =>
      simp only [hf] at hout
      cases hh : (feed_lookup env p).1.last_hash with
      | none => simp [hh] at hout
      | some hsh =>
        simp only [hh] at hout
        by_cases hx : env.hash c = hsh
        · simp [hx, no_change_tail_fst] at hout
        · simp [hx] at hout

/-- The raw-content branch reports `fetch-failed` exactly when
`fetch_page_content` failed. -/
theorem raw_branch_fetch_failed_iff (env : Env) (now : Int) (p1 : Project) :
    (raw_branch env now p1).1 = Outcome.fetchFailed ↔ env.fetchRaw p1.url = none := by
  unfold raw_branch
  cases hr : env.fetchRaw p1.url with
  | none => simp
  | some c =>
    cases hh : p1.last_hash with
    | none => simp
    | some hsh =>
      by_cases hx : env.hash c = hsh
      · simp [hx, no_change_tail_fst]
      · simp [hx]

/-! ## Claim C1 -/

def pC1 : Project :=
  { project_id := "c1", url := "https://example.com/p1", name := "p1"
  , rss_url := some "https://example.com/feed1" }

def envC1raw : Env :=
  { fetchFeed := fun _ => none, discoverFeed := fun _ => none
  , fetchRaw := fun _ => some "X", hash := fun s => s }

def envC1fail : Env :=
  { fetchFeed := fun _ => none, discoverFeed := fun _ => none
  , fetchRaw := fun _ => none, hash := fun s => s }

/-- C1 counterexample: with `feedLocator` (`rss_url`) set and `fetchFeed`
failing, the cycle does consult raw content.  Under a succeeding raw fetch
the outcome is `first-observation`, not `fetch-failed`; the two environments
differ only in `fetchRaw`, so raw fetching determines the outcome. -/
theorem C1_counterexample :
    pC1.rss_url = some "https://example.com/feed1" ∧
    envC1raw.fetchFeed "https://example.com/feed1" = none ∧
    envC1fail.fetchFeed "https://example.com/feed1" = none ∧
    (check_page_changes envC1raw 0 pC1).1 = Outcome.firstObservation ∧
    (check_page_changes envC1fail 0 pC1).1 = Outcome.fetchFailed :=
  ⟨rfl, rfl, rfl, rfl, rfl⟩

/-- C1 (amended): when `feedLocator` is set and `fetchFeed` fails, the
detector falls back to raw-content fetching within the same cycle; the
outcome is `fetch-failed` exactly when the raw fetch also fails. -/
theorem C1_feed_failure_falls_back (env : Env) (now : Int) (p : Project) (u : String)
    (hu : p.rss_url = some u) (hf : env.fetchFeed u = none) :
    check_page_changes env now p = raw_branch env now p ∧
    ((check_page_changes env now p).1 = Outcome.fetchFailed ↔
      env.fetchRaw p.url = none) := by
  have hfl : feed_lookup env p = (p, none) := by
    unfold feed_lookup
    simp only [hu, hf]
  have hmain : check_page_changes env now p = raw_branch env now p := by
    unfold check_page_changes
    rw [hfl]
  refine ⟨hmain, ?_⟩
  rw [hmain]
  exact raw_branch_fetch_failed_iff env now p

/-- C1 witness: the amended fallback theorem at a concrete input. -/
theorem C1_witness :
    check_page_changes envC1raw 0 pC1 = raw_branch envC1raw 0 pC1 ∧
    ((check_page_changes envC1raw 0 pC1).1 = Outcome.fetchFailed ↔
      envC1raw.fetchRaw pC1.url = none) :=
  C1_feed_failure_falls_back envC1raw 0 pC1 "https://example.com/feed1" rfl rfl

/-! ## Claim C6 -/

def pC6 : Project :=
  { project_id := "c6", url := "https://example.com/p6", name := "p6" }

def envC6 : Env :=
  { fetchFeed := fun _ => none
  , discoverFeed := fun _ => some "https://example.com/feed6"
  , fetchRaw := fun _ => none, hash := fun s => s }

/-- C6 counterexample: a cycle that discovers a feed, then fails both the
feed fetch and the raw fetch, has outcome `fetch-failed` yet has mutated the
project's `rss_url` field from `none` to the discovered url. -/
theorem C6_counterexample :
    (check_page_changes envC6 0 pC6).1 = Outcome.fetchFailed ∧
    pC6.rss_url = none ∧
    (check_page_changes envC6 0 pC6).2.1.rss_url = some "https://example.com/feed6" :=
  ⟨rfl, rfl, rfl⟩

/-- C6 (amended): on every `fetch-failed` cycle, `last_check` is set to the
cycle's start time and every field except `rss_url` is unchanged; `rss_url`
either is unchanged or was `none` and now records a discovered feed url. -/
theorem C6_fetch_failed_frame (env : Env) (now : Int) (p : Project)
    (hout : (check_page_changes env now p).1 = Outcome.fetchFailed) :
    (check_page_changes env now p).2.1.last_check = some (TimeStr.valid now) ∧
    (check_page_changes env now p).2.1.last_hash = p.last_hash ∧
    (check_page_changes env now p).2.1.last_rss_items = p.last_rss_items ∧
    (check_page_changes env now p).2.1.project_id = p.project_id ∧
    (check_page_changes env now p).2.1.url = p.url ∧
    (check_page_changes env now p).2.1.name = p.name ∧
    (check_page_changes env now p).2.1.interval_minutes = p.interval_minutes ∧
    (check_page_changes env now p).2.1.is_active = p.is_active ∧
    (check_page_changes env now p).2.1.notify_on_no_changes = p.notify_on_no_changes ∧
    (check_page_changes env now p).2.1.last_notification = p.last_notification ∧
    ((check_page_changes env now p).2.1.rss_url = p.rss_url ∨
      (p.rss_url = none ∧ ∃ u, (check_page_changes env now p).2.1.rss_url = some u)) := by
  obtain ⟨⟨h1, h2, h3, h4, h5, h6, h7, h8, h9, h10⟩, h11⟩ := feed_lookup_spec env p
  rw [(fetch_failed_inversion env now p hout).1]
  exact ⟨rfl, h4, h10, h1, h2, h3, h6, h7, h8, h9, h11⟩

/-- C6 witness: the amended frame theorem at a concrete input. -/
theorem C6_witness :
    (check_page_changes envC6 0 pC6).2.1.last_check = some (TimeStr.valid 0) ∧
    (check_page_changes envC6 0 pC6).2.1.last_hash = pC6.last_hash ∧
    (check_page_changes envC6 0 pC6).2.1.last_rss_items = pC6.last_rss_items ∧
    (check_page_changes envC6 0 pC6).2.1.project_id = pC6.project_id ∧
    (check_page_changes envC6 0 pC6).2.1.url = pC6.url ∧
    (check_page_changes envC6 0 pC6).2.1.name = pC6.name ∧
    (check_page_changes envC6 0 pC6).2.1.interval_minutes = pC6.interval_minutes ∧
    (check_page_changes envC6 0 pC6).2.1.is_active = pC6.is_active ∧
    (check_page_changes envC6 0 pC6).2.1.notify_on_no_changes = pC6.notify_on_no_changes ∧
    (check_page_changes envC6 0 pC6).2.1.last_notification = pC6.last_notification ∧
    ((check_page_changes envC6 0 pC6).2.1.rss_url = pC6.rss_url ∨
      (pC6.rss_url = none ∧ ∃ u, (check_page_changes envC6 0 pC6).2.1.rss_url = some u)) :=
  C6_fetch_failed_frame envC6 0 pC6 rfl

/-! ## Claim C7 -/

def pC7 : Project :=
  { project_id := "c7", url := "https://example.com/p7", name := "p7"
  , notify_on_no_changes := true, last_notification := some (TimeStr.valid 0) }

def envC7 : Env :=
  { fetchFeed := fun _ => none, discoverFeed := fun _ => none
  , fetchRaw := fun _ => none, hash := fun s => s }

/-- C7: every `fetch-failed` cycle sends exactly the "could not check"
message; the notify flag and the notification throttle are irrelevant (the
theorem quantifies over all projects, hence all flag/timestamp values). -/
theorem C7_fetch_failed_always_notifies (env : Env) (now : Int) (p : Project)
    (hout : (check_page_changes env now p).1 = Outcome.fetchFailed) :
    (check_page_changes env now p).2.2 = [Notif.fetchFailedMsg] := by
  rw [(fetch_failed_inversion env now p hout).1]

/-- C7 witness: a failing fetch on a project with the notify flag on and a
fresh `last_notification` still produces the failure message. -/
theorem C7_witness :
    (check_page_changes envC7 0 pC7).2.2 = [Notif.fetchFailedMsg] :=
  C7_fetch_failed_always_notifies envC7 0 pC7 rfl

/-! ## Claim C2 -/

def pC2 : Project :=
  { project_id := "c2", url := "https://example.com/p2", name := "p2" }

def envC2 : Env :=
  { fetchFeed := fun _ => none, discoverFeed := fun _ => none
  , fetchRaw := fun _ => some "X", hash := fun s => s }

/-- C2: on a successful raw-content cycle (no usable feed, raw fetch
succeeds): with no stored fingerprint the outcome is `first-observation` and
the fingerprint becomes the fetched content's digest; with a stored
fingerprint, a differing digest gives `changed` and updates the fingerprint,
an equal digest gives `unchanged` and leaves it untouched. -/
theorem C2_raw_content_state_machine (env : Env) (now : Int) (p : Project) (c : String)
    (hfeed : usable_feed (feed_lookup env p).2 = false)
    (hraw : env.fetchRaw p.url = some c) :
    (p.last_hash = none →
       (check_page_changes env now p).1 = Outcome.firstObservation ∧
       (check_page_changes env now p).2.1.last_hash = some (env.hash c)) ∧
    (∀ h0, p.last_hash = some h0 →
       (env.hash c ≠ h0 →
          (check_page_changes env now p).1 = Outcome.changed ∧
          (check_page_changes env now p).2.1.last_hash = some (env.hash c)) ∧
       (env.hash c = h0 →
          (check_page_changes env now p).1 = Outcome.unchanged ∧
          (check_page_changes env now p).2.1.last_hash = p.last_hash)) := by
  obtain ⟨⟨_, hurl, _, hlh, _, _, _, _, _, _⟩, _⟩ := feed_lookup_spec env p
  rw [check_raw_of_unusable env now p hfeed]
  unfold raw_branch
  simp only [hurl, hraw, hlh]
  constructor
  · intro hnone
    simp [hnone]
  · intro h0 hh0
    simp only [hh0]
    constructor
    · intro hne
      rw [if_pos hne]
      exact ⟨rfl, rfl⟩
    · intro hsame
      rw [if_neg (fun hn => hn hsame)]
      refine ⟨no_change_tail_fst _ _ _, ?_⟩
      unfold no_change_tail
      split
      · rfl
      · rfl

/-- C2 witness: a first raw check on a fresh project. -/
theorem C2_witness :
    (check_page_changes envC2 0 pC2).1 = Outcome.firstObservation ∧
    (check_page_changes envC2 0 pC2).2.1.last_hash = some (envC2.hash "X") :=
  (C2_raw_content_state_machine envC2 0 pC2 "X" rfl rfl).1 rfl

/-! ## Claim C3 -/

def pC3 : Project :=
  { project_id := "c3", url := "https://example.com/p3", name := "p3"
  , last_hash := some "X", notify_on_no_changes := true }

def envC3 : Env :=
  { fetchFeed := fun _ => none, discoverFeed := fun _ => none
  , fetchRaw := fun _ => some "X", hash := fun s => s }

/-- C3: on every `unchanged` cycle whose stored `last_notification` is not a
garbled timestamp, a "no changes" notification is emitted iff the notify flag
is on and (no previous notification, or at least 3600 seconds elapsed); on
emission `last_notification` becomes the cycle's start time, otherwise it is
untouched — hence a second `unchanged` cycle 600 seconds later never
notifies again. -/
theorem C3_unchanged_notification_throttle (env : Env) (now : Int) (p : Project)
    (hts : p.last_notification ≠ some TimeStr.invalid)
    (hout : (check_page_changes env now p).1 = Outcome.unchanged) :
    (emits_no_change (check_page_changes env now p).2.2 = true ↔
       (p.notify_on_no_changes = true ∧
        (p.last_notification = none ∨
         ∃ s, p.last_notification = some (TimeStr.valid s) ∧ 3600 ≤ now - s))) ∧
    (emits_no_change (check_page_changes env now p).2.2 = true →
       (check_page_changes env now p).2.1.last_notification = some (TimeStr.valid now)) ∧
    (emits_no_change (check_page_changes env now p).2.2 = false →
       (check_page_changes env now p).2.1.last_notification = p.last_notification) ∧
    (emits_no_change (check_page_changes env now p).2.2 = true →
       ∀ env2 : Env,
         (check_page_changes env2 (now + 600) (check_page_changes env now p).2.1).1 =
           Outcome.unchanged →
         emits_no_change
           (check_page_changes env2 (now + 600) (check_page_changes env now p).2.1).2.2 =
           false) := by
  obtain ⟨hemits, hset, hkeep⟩ := unchanged_cycle_spec env now p hout
  have hiff : should_notify_no_change p now = true ↔
      (p.notify_on_no_changes = true ∧
       (p.last_notification = none ∨
        ∃ s, p.last_notification = some (TimeStr.valid s) ∧ 3600 ≤ now - s)) := by
    unfold should_notify_no_change
    cases hfl : p.notify_on_no_changes with
    | false => simp
    | true =>
      cases hln : p.last_notification with
      | none => simp
      | some t =>
        cases t with
        | invalid => exact absurd hln hts
        | valid s => simp
  refine ⟨by rw [hemits]; exact hiff, ?_, ?_, ?_⟩
  · intro he
    rw [hemits] at he
    exact hset he
  · intro he
    rw [hemits] at he
    exact hkeep (by simp [he])
  · intro he env2 hout2
    rw [hemits] at he
    have hval : (check_page_changes env now p).2.1.last_notification =
        some (TimeStr.valid now) := hset he
    obtain ⟨hemits2, _, _⟩ :=
      unchanged_cycle_spec env2 (now + 600) (check_page_changes env now p).2.1 hout2
    rw [hemits2]
    unfold should_notify_no_change
    rw [hval]
    cases hfl2 : (check_page_changes env now p).2.1.notify_on_no_changes with
    | false => simp
    | true =>
      simp only [if_true]
      have h600 : now + 600 - now = (600 : Int) := by ring
      rw [h600]
      decide

/-- C3 witness: the throttle theorem at a concrete `unchanged` cycle with no
previous notification. -/
theorem C3_witness :
    emits_no_change (check_page_changes envC3 0 pC3).2.2 = true ∧
    (check_page_changes envC3 0 pC3).2.1.last_notification = some (TimeStr.valid 0) :=
  have h := C3_unchanged_notification_throttle envC3 0 pC3 (by decide) rfl
  ⟨h.1.mpr ⟨rfl, Or.inl rfl⟩, h.2.1 (h.1.mpr ⟨rfl, Or.inl rfl⟩)⟩

/-! ## Claim C9 -/

def pC9 : Project :=
  { project_id := "c9", url := "https://example.com/p9", name := "p9"
  , last_hash := some "X", notify_on_no_changes := true
  , last_notification := some TimeStr.invalid }

def envC9 : Env :=
  { fetchFeed := fun _ => none, discoverFeed := fun _ => none
  , fetchRaw := fun _ => some "X", hash := fun s => s }

/-- C9: when the notify flag is on and the stored `last_notification` fails
to parse, an `unchanged` cycle bypasses the 3600-second throttle: it always
emits the "no changes" notification and overwrites `last_notification` with
the cycle's start time. -/
theorem C9_invalid_timestamp_bypass (env : Env) (now : Int) (p : Project)
    (hflag : p.notify_on_no_changes = true)
    (hinv : p.last_notification = some TimeStr.invalid)
    (hout : (check_page_changes env now p).1 = Outcome.unchanged) :
    emits_no_change (check_page_changes env now p).2.2 = true ∧
    (check_page_changes env now p).2.1.last_notification = some (TimeStr.valid now) := by
  obtain ⟨hemits, hset, _⟩ := unchanged_cycle_spec env now p hout
  have hsn : should_notify_no_change p now = true := by
    simp [should_notify_no_change, hflag, hinv]
  exact ⟨by rw [hemits]; exact hsn, hset hsn⟩

/-- C9 witness: an unparseable stored timestamp, notify flag on, and an
`unchanged` cycle five seconds in. -/
theorem C9_witness :
    emits_no_change (check_page_changes envC9 5 pC9).2.2 = true ∧
    (check_page_changes envC9 5 pC9).2.1.last_notification = some (TimeStr.valid 5) :=
  C9_invalid_timestamp_bypass envC9 5 pC9 rfl rfl rfl

/-! ## Claim C4 -/

def itemA1 : RssItem := { id := "a1", title := "t1", link := "l1", published := "" }

def itemA2 : RssItem := { id := "a2", title := "t2", link := "l2", published := "" }

def dC4 : RssData := { items := [itemA2, itemA1], feed_title := "T", feed_link := "L" }

def pC4 : Project :=
  { project_id := "c4", url := "https://example.com/p4", name := "p4"
  , rss_url := some "https://example.com/feed4"
  , last_rss_items := some ["a1"] }

def envC4 : Env :=
  { fetchFeed := fun _ => some dC4, discoverFeed := fun _ => none
  , fetchRaw := fun _ => none, hash := fun s => s }

/-- C4: on a successful feed cycle with `feedIdentity` (`last_rss_items`)
already set, the new items are exactly the fetched items whose id is absent
from the stored identity, in feed order; when that list is non-empty the
outcome is `feed-new-items`, the identity is replaced by the current id list,
and one notification per new item is sent in reversed (oldest-first) order;
an id already stored is never re-reported. -/
theorem C4_feed_new_items (env : Env) (now : Int) (p : Project) (d : RssData)
    (prev : List String)
    (hd : (feed_lookup env p).2 = some d)
    (hne : d.items.isEmpty = false)
    (hprev : p.last_rss_items = some prev) :
    ((d.items.filter (fun it => !(prev.contains it.id))).isEmpty = false →
       (check_page_changes env now p).1 =
         Outcome.feedNewItems (d.items.filter (fun it => !(prev.contains it.id))) ∧
       (check_page_changes env now p).2.1.last_rss_items =
         some (d.items.map (fun it => it.id)) ∧
       (check_page_changes env now p).2.2 =
         (d.items.filter (fun it => !(prev.contains it.id))).reverse.map Notif.newItem) ∧
    ((d.items.filter (fun it => !(prev.contains it.id))).isEmpty = true →
       (check_page_changes env now p).1 = Outcome.unchanged) ∧
    (∀ it : RssItem, Notif.newItem it ∈ (check_page_changes env now p).2.2 →
       prev.contains it.id = false) := by
  obtain ⟨⟨_, _, _, _, _, _, _, _, _, hlr⟩, _⟩ := feed_lookup_spec env p
  have hprev1 : (feed_lookup env p).1.last_rss_items = some prev := by
    rw [hlr, hprev]
  have heq : check_page_changes env now p =
      feed_branch now (feed_lookup env p).1 d.items := by
    unfold check_page_changes
    rw [hd]
    simp [hne]
  rw [heq]
  unfold feed_branch
  simp only [hprev1]
  rcases Bool.eq_false_or_eq_true
      ((d.items.filter (fun it => !(prev.contains it.id))).isEmpty) with hni | hni
  · rw [if_pos hni]
    refine ⟨fun hcontra => absurd (hni.symm.trans hcontra) (by decide),
            fun _ => no_change_tail_fst _ _ _, ?_⟩
    intro it hmem
    unfold no_change_tail at hmem
    split at hmem
    · simp at hmem
    · simp at hmem
  · rw [if_neg (show ¬((d.items.filter (fun it => !(prev.contains it.id))).isEmpty = true)
        from fun hcontra => absurd (hni.symm.trans hcontra) (by decide))]
    refine ⟨fun _ => ⟨rfl, rfl, rfl⟩,
            fun hcontra => absurd (hni.symm.trans hcontra) (by decide), ?_⟩
    intro it hmem
    have hmem2 : it ∈ d.items.filter (fun it => !(prev.contains it.id)) := by
      rw [List.mem_map] at hmem
      obtain ⟨it2, hit2, hinj⟩ := hmem
      have hii : it2 = it := Notif.newItem.inj hinj
      subst hii
      exact List.mem_reverse.mp hit2
    have hof := List.of_mem_filter hmem2
    simpa using hof

/-- C4 witness: the spec's own scenario — `a1` already known, feed now lists
`a2` then `a1`; only `a2` is reported. -/
theorem C4_witness :
    (check_page_changes envC4 0 pC4).1 = Outcome.feedNewItems [itemA2] ∧
    (check_page_changes envC4 0 pC4).2.1.last_rss_items = some ["a2", "a1"] ∧
    (check_page_changes envC4 0 pC4).2.2 = [Notif.newItem itemA2] := by
  have h := (C4_feed_new_items envC4 0 pC4 dC4 ["a1"] rfl rfl rfl).1 (by decide)
  refine ⟨?_, ?_, ?_⟩
  · rw [h.1]
    decide
  · rw [h.2.1]
    decide
  · rw [h.2.2]
    decide

/-! ## Claim C8 -/

def pC8 : Project :=
  { project_id := "c8", url := "https://example.com/p8", name := "p8"
  , interval_minutes := 60 }

/-- C8: the `/interval` command rejects every value below one with the
`InvalidInterval` error — the stored record (and hence its prior interval) is
untouched — and accepts every positive value, replacing the interval and
changing nothing else. -/
theorem C8_set_interval (p : Project) (m : Int) :
    (m < 1 →
       interval_command_core p m = IntervalResult.invalidInterval ∧
       interval_command_apply p m = p) ∧
    (1 ≤ m →
       interval_command_core p m = IntervalResult.ok { p with interval_minutes := m } ∧
       (interval_command_apply p m).interval_minutes = m) := by
  constructor
  · intro hm
    have hc : interval_command_core p m = IntervalResult.invalidInterval := by
      unfold interval_command_core
      rw [if_pos hm]
    refine ⟨hc, ?_⟩
    unfold interval_command_apply
    rw [hc]
  · intro hm
    have hc : interval_command_core p m =
        IntervalResult.ok { p with interval_minutes := m } := by
      unfold interval_command_core
      rw [if_neg (by omega)]
    refine ⟨hc, ?_⟩
    unfold interval_command_apply
    rw [hc]

/-- C8 witness: `0` and `-5` are rejected leaving the record alone; `30` is
accepted and stored. -/
theorem C8_witness :
    interval_command_core pC8 0 = IntervalResult.invalidInterval ∧
    interval_command_apply pC8 0 = pC8 ∧
    interval_command_core pC8 (-5) = IntervalResult.invalidInterval ∧
    interval_command_apply pC8 (-5) = pC8 ∧
    interval_command_core pC8 30 = IntervalResult.ok { pC8 with interval_minutes := 30 } ∧
    (interval_command_apply pC8 30).interval_minutes = 30 :=
  ⟨((C8_set_interval pC8 0).1 (by decide)).1,
   ((C8_set_interval pC8 0).1 (by decide)).2,
   ((C8_set_interval pC8 (-5)).1 (by decide)).1,
   ((C8_set_interval pC8 (-5)).1 (by decide)).2,
   ((C8_set_interval pC8 30).2 (by decide)).1,
   ((C8_set_interval pC8 30).2 (by decide)).2⟩

/-! ## Claim C10 -/

/-- Taking the first ten elements yields the empty list only for the empty
list. -/
theorem take10_nil_iff (l : List FeedEntry) : l.take 10 = [] ↔ l = [] := by
  cases l <;> simp

/-- `fetch_rss_content` never returns more than ten items
(`feed.entries[:10]`). -/
theorem fetch_rss_content_items_le (u : String) (f : ParsedFeed) (d : RssData)
    (h : fetch_rss_content u f = some d) : d.items.length ≤ 10 := by
  unfold fetch_rss_content at h
  split at h
  · obtain hdd := Option.some.inj h
    rw [← hdd]
    simp only [List.length_map, List.length_take]
    omega
  · exact Option.noConfusion h

/-- Whatever feed data a cycle obtains came from `fetchFeed` on some url. -/
theorem feed_lookup_feed_src (env : Env) (p : Project) (d : RssData)
    (hd : (feed_lookup env p).2 = some d) : ∃ u, env.fetchFeed u = some d := by
  unfold feed_lookup at hd
  cases hr : p.rss_url with
  | some u =>
    rw [hr] at hd
    exact ⟨u, hd⟩
  | none =>
    rw [hr] at hd
    cases hdf : env.discoverFeed p.url with
    | some u =>
      rw [hdf] at hd
      exact ⟨u, hd⟩
    | none =>
      rw [hdf] at hd
      exact Option.noConfusion hd

/-- The "no changes" tail never touches `last_rss_items`. -/
theorem no_change_tail_last_rss (now : Int) (p2 : Project) (msg : Notif) :
    (no_change_tail now p2 msg).2.1.last_rss_items = p2.last_rss_items := by
  unfold no_change_tail
  split <;> rfl

/-- The raw-content branch never touches `last_rss_items`. -/
theorem raw_branch_last_rss (env : Env) (now : Int) (p1 : Project) :
    (raw_branch env now p1).2.1.last_rss_items = p1.last_rss_items := by
  unfold raw_branch
  split
  · rfl
  · split
    · rfl
    · split
      · rfl
      · rw [no_change_tail_last_rss]

/-- C10: `fetch_rss_content` keeps at most the first 10 feed entries, its
result depends only on those entries (plus the bozo flag and feed metadata),
and consequently any value a cycle writes into `last_rss_items` has at most
10 identifiers. -/
theorem C10_feed_truncation :
    (∀ (u : String) (f : ParsedFeed) (d : RssData),
        fetch_rss_content u f = some d → d.items.length ≤ 10) ∧
    (∀ (u : String) (f g : ParsedFeed),
        f.bozo = g.bozo → f.entries.take 10 = g.entries.take 10 →
        f.title = g.title → f.link = g.link →
        fetch_rss_content u f = fetch_rss_content u g) ∧
    (∀ (env : Env) (now : Int) (p : Project),
        (∀ v, env.fetchFeed v = none ∨
           ∃ u2 f, env.fetchFeed v = fetch_rss_content u2 f) →
        (check_page_changes env now p).2.1.last_rss_items ≠ p.last_rss_items →
        ∃ l, (check_page_changes env now p).2.1.last_rss_items = some l ∧
             l.length ≤ 10) := by
  refine ⟨fetch_rss_content_items_le, ?_, ?_⟩
  · intro u f g hb ht htitle hlink
    have hnil : ∀ a b : List FeedEntry, a.take 10 = b.take 10 → a = [] → b = [] := by
      intro a b hab ha
      subst ha
      refine (take10_nil_iff b).mp ?_
      rw [← hab]
      rfl
    have hlen : (0 < f.entries.length) ↔ (0 < g.entries.length) := by
      rw [List.length_pos, List.length_pos]
      constructor
      · intro hfu hgn
        exact hfu (hnil g.entries f.entries ht.symm hgn)
      · intro hgu hfn
        exact hgu (hnil f.entries g.entries ht hfn)
    unfold fetch_rss_content
    by_cases hc : f.bozo = 0 ∨ 0 < f.entries.length
    · have hc2 : g.bozo = 0 ∨ 0 < g.entries.length := by
        rw [← hb, ← hlen]
        exact hc
      rw [if_pos hc, if_pos hc2, ht, htitle, hlink]
    · have hc2 : ¬(g.bozo = 0 ∨ 0 < g.entries.length) := by
        rw [← hb, ← hlen]
        exact hc
      rw [if_neg hc, if_neg hc2]
  · intro env now p horacle hne
    rcases check_cases env now p with ⟨d, hd, he, heq⟩ | ⟨hu, heq⟩
    · have hd10 : d.items.length ≤ 10 := by
        obtain ⟨u, hsrc⟩ := feed_lookup_feed_src env p d hd
        rcases horacle u with hnone | ⟨u2, f, hfac⟩
        · rw [hnone] at hsrc
          exact Option.noConfusion hsrc
        · rw [hfac] at hsrc
          exact fetch_rss_content_items_le u2 f d hsrc
      obtain ⟨⟨_, _, _, _, _, _, _, _, _, hlr⟩, _⟩ := feed_lookup_spec env p
      rw [heq] at hne ⊢
      unfold feed_branch at hne ⊢
      cases hprev : (feed_lookup env p).1.last_rss_items with
      | none =>
        simp only [hprev] at hne ⊢
        exact ⟨d.items.map (fun it => it.id), rfl, by simpa using hd10⟩
      | some prev =>
        simp only [hprev] at hne ⊢
        rcases Bool.eq_false_or_eq_true
            ((d.items.filter (fun it => !(prev.contains it.id))).isEmpty) with hni | hni
        · rw [if_pos hni] at hne
          rw [no_change_tail_last_rss] at hne
          have hsp : some prev = p.last_rss_items := by
            rw [← hprev]
            exact hlr
          exact absurd hsp hne
        · rw [if_neg (show
              ¬((d.items.filter (fun it => !(prev.contains it.id))).isEmpty = true)
              from fun hcontra => absurd (hni.symm.trans hcontra) (by decide))] at hne ⊢
          exact ⟨d.items.map (fun it => it.id), rfl, by simpa using hd10⟩
    · obtain ⟨⟨_, _, _, _, _, _, _, _, _, hlr2⟩, _⟩ := feed_lookup_spec env p
      rw [heq, raw_branch_last_rss, hlr2] at hne
      exact absurd rfl hne

def entryC10 : FeedEntry :=
  { id := some "e", title := none, link := none, published := none, updated := none }

def fC10 : ParsedFeed :=
  { bozo := 0, entries := List.replicate 12 entryC10, title := none, link := none }

/-- C10 witness: a 12-entry feed parses into at most ten items. -/
theorem C10_witness :
    ((fC10.entries.take 10).map entry_to_item).length ≤ 10 :=
  C10_feed_truncation.1 "u" fC10
    { items := (fC10.entries.take 10).map entry_to_item
    , feed_title := "RSS Feed", feed_link := "u" } rfl

end ChangesBot
